import Mathlib

/-!
Shallow embedding of `src/time_to_merge.py`: a module that measures the time
it takes to merge a GitHub pull request, aggregates an average over a list of
closed pull requests, and generates a tabular report.

Timestamps are modelled as integers at a fixed resolution (CPython stores
`datetime`/`timedelta` values as integer microseconds); a difference of two
timestamps is a duration, also an integer.  Python truthiness, where the
source relies on it, is modelled explicitly:

* `if ready_for_review_at:` in `measure_time_to_merge` — a `datetime` object
  is always truthy, so on an `Optional[datetime]` this test is exactly
  "is not `None`" (`Option.isSome`);
* `if time_to_merge:` in `main` — a `timedelta` is falsy exactly when it is
  zero, so on an `Optional[timedelta]` this test is "present and nonzero";
* `total_time_to_merge / count` — `timedelta` divided by `int` uses CPython's
  `_divide_and_round`, floor division corrected by round-half-to-even.

The external GitHub collaborator (authentication, fetching) is out of scope:
`main` is modelled as a function of the fetched list of closed pull requests
and of the reported open-pull-request count.
-/

/-- A GitHub pull request record, with exactly the fields the source reads:
`number`, `created_at`, `updated_at`, `merged_at` and `draft`.
`merged_at` is `none` for a pull request that was never merged. -/
structure PullRequest where
  number : Nat
  created_at : Int
  updated_at : Int
  merged_at : Option Int
  draft : Bool
deriving Repr, DecidableEq

/-- `measure_time_to_merge(pull_request, ready_for_review_at)` from
`src/time_to_merge.py`.  Returns `None` when the pull request was not merged;
otherwise `merged_at - ready_for_review_at` when a ready-for-review timestamp
is supplied (a `datetime` is always truthy, so `if ready_for_review_at:` is
an `is not None` test), else `merged_at - created_at`. -/
def measure_time_to_merge (pull_request : PullRequest)
    (ready_for_review_at : Option Int) : Option Int :=
  match pull_request.merged_at with
  | none => none
  | some merged_at =>
    match ready_for_review_at with
    | some r => some (merged_at - r)
    | none => some (merged_at - pull_request.created_at)

/-- One entry of `prs_with_metrics` in `main`: the dict
`{'pr': ..., 'ready_for_review_at': ..., 'merged_at': ..., 'time_to_merge': ...}`.
`merged_at` is stored as the raw optional field, exactly as `pr.merged_at` is
stored in the dict. -/
structure MetricRow where
  pr : Nat
  ready_for_review_at : Int
  merged_at : Option Int
  time_to_merge : Int
deriving Repr, DecidableEq

/-- The report produced by `generate_report`: one table row per element of
`prs_with_metrics` (in list order), then the average time to merge, the open
pull-request count and the closed (counted) pull-request count. -/
structure Report where
  rows : List MetricRow
  average_time_to_merge : Int
  total_open_prs : Nat
  count : Nat
deriving Repr, DecidableEq

/-- `generate_report(prs_with_metrics, average_time_to_merge, total_open_prs,
count)`: writes one markdown table row per metric, in list order, then the
three summary values.  Modelled as assembling the report content; the
markdown serialization of each value is injective on the data recorded here.
-/
def generate_report (prs_with_metrics : List MetricRow)
    (average_time_to_merge : Int) (total_open_prs : Nat) (count : Nat) :
    Report :=
  { rows := prs_with_metrics
    average_time_to_merge := average_time_to_merge
    total_open_prs := total_open_prs
    count := count }

/-- The ready-for-review timestamp computed per record in `main`:
`pr.created_at if not pr.draft else pr.updated_at`. -/
def ready_for_review (pr : PullRequest) : Int :=
  if !pr.draft then pr.created_at else pr.updated_at

/-- CPython's `datetime._divide_and_round(a, b)`, used by
`timedelta.__truediv__` for division by an `int`:

```
q, r = divmod(a, b)        # floor division
r *= 2
greater_than_half = r > b if b > 0 else r < b
if greater_than_half or r == b and q % 2 == 1:
    q += 1
```

`Int.fdiv`/`Int.fmod` are Python's floor `divmod`. -/
def divide_and_round (a b : Int) : Int :=
  let q := Int.fdiv a b
  let r := 2 * Int.fmod a b
  let greater_than_half := if 0 < b then b < r else r < b
  if greater_than_half ∨ (r = b ∧ Int.fmod q 2 = 1) then q + 1 else q

/-- The `for pr in pull_requests:` loop of `main`, returning
`(prs_with_metrics, total_time_to_merge, count)`.  The guard
`if time_to_merge:` is Python truthiness on an `Optional[timedelta]`:
it holds iff the value is present and nonzero (`timedelta(0)` is falsy,
negative timedeltas are truthy). -/
def main_loop : List PullRequest → List MetricRow × Int × Nat
  | [] => ([], 0, 0)
  | pr :: rest =>
    let ready_for_review_at := ready_for_review pr
    let time_to_merge := measure_time_to_merge pr (some ready_for_review_at)
    let acc := main_loop rest
    match time_to_merge with
    | some d =>
      if d ≠ 0 then
        ({ pr := pr.number
           ready_for_review_at := ready_for_review_at
           merged_at := pr.merged_at
           time_to_merge := d } :: acc.1,
         d + acc.2.1, acc.2.2 + 1)
      else acc
    | none => acc

/-- `main()` from `src/time_to_merge.py`, as a function of the externally
fetched data: the list of closed pull requests returned by
`fetch_pull_requests` and the open pull-request count read from the
collaborator.  Runs the aggregation loop, computes
`total_time_to_merge / count if count > 0 else timedelta(0)` and generates
the report. -/
def main_run (pull_requests : List PullRequest) (total_open_prs : Nat) : Report :=
  let acc := main_loop pull_requests
  let prs_with_metrics := acc.1
  let total_time_to_merge := acc.2.1
  let count := acc.2.2
  let average_time_to_merge :=
    if count > 0 then divide_and_round total_time_to_merge (count : Int)
    else 0
  generate_report prs_with_metrics average_time_to_merge total_open_prs count

/-! ## Specification-side characterizations

The following definitions restate, independently of the loop recursion, which
records contribute to the report and with what values.  They are used to
state the aggregate claims. -/

/-- Python truthiness of an `Optional[timedelta]`: present and nonzero. -/
def td_truthy : Option Int → Bool
  | none => false
  | some d => decide (d ≠ 0)

/-- Whether a record passes the loop's `if time_to_merge:` guard. -/
def keepP (pr : PullRequest) : Bool :=
  td_truthy (measure_time_to_merge pr (some (ready_for_review pr)))

/-- The duration the loop computes for a kept (merged) record. -/
def durOf (pr : PullRequest) : Int :=
  pr.merged_at.getD 0 - ready_for_review pr

/-- The metric row the loop appends for a kept record. -/
def rowOf (pr : PullRequest) : MetricRow :=
  { pr := pr.number
    ready_for_review_at := ready_for_review pr
    merged_at := pr.merged_at
    time_to_merge := durOf pr }

/-- The number of records the loop keeps: merged with a nonzero duration. -/
def nonzero_merged_count (prs : List PullRequest) : Nat :=
  (prs.filter keepP).length

/-- The total duration over the records the loop keeps. -/
def nonzero_merged_sum (prs : List PullRequest) : Int :=
  ((prs.filter keepP).map durOf).sum

/-- Modelled from the spec: the per-record durations of all merged records
(`mergedAt - readyForReviewAt`, with `readyForReviewAt` derived as in the
aggregation loop), merged or not kept alike. -/
def mergedDurations (prs : List PullRequest) : List Int :=
  prs.filterMap (fun pr => pr.merged_at.map (fun m => m - ready_for_review pr))

/-- Modelled from the spec: the average as the spec states it — the sum of
the per-record durations of merged records divided by the number of merged
records, as an exact rational. -/
def spec_average (prs : List PullRequest) : ℚ :=
  ((mergedDurations prs).sum : ℚ) / ((mergedDurations prs).length : ℚ)

/-- Modelled from the spec: the number of merged records (present
`mergedAt`). -/
def spec_merged_count (prs : List PullRequest) : Nat :=
  (prs.filter (fun pr => pr.merged_at.isSome)).length

/-! ## Loop characterization -/

/-- The aggregation loop keeps exactly the records passing the truthiness
guard, in traversal order, and accumulates their durations and count. -/
theorem main_loop_eq (prs : List PullRequest) :
    main_loop prs =
      ((prs.filter keepP).map rowOf, nonzero_merged_sum prs,
        nonzero_merged_count prs) := by
  induction prs with
  | nil => rfl
  | cons pr rest ih =>
    cases hm : pr.merged_at with
    | none =>
      simp [main_loop, measure_time_to_merge, hm, keepP, td_truthy, ih,
        nonzero_merged_sum, nonzero_merged_count]
    | some m =>
      by_cases hd : m - ready_for_review pr = 0
      · simp [main_loop, measure_time_to_merge, hm, keepP, td_truthy, hd, ih,
          nonzero_merged_sum, nonzero_merged_count]
      · simp [main_loop, measure_time_to_merge, hm, keepP, td_truthy, hd, ih,
          nonzero_merged_sum, nonzero_merged_count, rowOf, durOf]

/-! ## Claims about the Metric Calculator -/

/-- Claim C1: for every pull-request record whose `merged_at` is present and
for every supplied (non-`None`) ready-for-review timestamp,
`measure_time_to_merge` returns exactly `merged_at - ready_for_review_at`,
including when that difference is negative. -/
theorem merged_with_ready_duration (pr : PullRequest) (m t : Int)
    (h : pr.merged_at = some m) :
    measure_time_to_merge pr (some t) = some (m - t) := by
  simp [measure_time_to_merge, h]

/-- Witness for C1, at a record merged before it was ready for review, so the
returned difference is negative. -/
theorem merged_with_ready_duration_witness :
    (PullRequest.mk 1 0 0 (some 5) false).merged_at = some 5 ∧
    measure_time_to_merge (PullRequest.mk 1 0 0 (some 5) false) (some 10) =
      some (5 - 10) ∧ (5 - 10 : Int) < 0 :=
  ⟨rfl, merged_with_ready_duration _ 5 10 rfl, by decide⟩

/-- Claim C2: for every pull-request record whose `merged_at` is present and
with no ready-for-review timestamp supplied (`None`),
`measure_time_to_merge` returns exactly `merged_at - created_at`. -/
theorem merged_without_ready_uses_created (pr : PullRequest) (m : Int)
    (h : pr.merged_at = some m) :
    measure_time_to_merge pr none = some (m - pr.created_at) := by
  simp [measure_time_to_merge, h]

/-- Witness for C2. -/
theorem merged_without_ready_uses_created_witness :
    (PullRequest.mk 2 3 9 (some 10) true).merged_at = some 10 ∧
    measure_time_to_merge (PullRequest.mk 2 3 9 (some 10) true) none =
      some (10 - 3) :=
  ⟨rfl, merged_without_ready_uses_created _ 10 rfl⟩

/-- Claim C3: for every pull-request record whose `merged_at` is absent,
`measure_time_to_merge` returns `none`, regardless of the ready-for-review
argument. -/
theorem unmerged_returns_none (pr : PullRequest)
    (ready_for_review_at : Option Int) (h : pr.merged_at = none) :
    measure_time_to_merge pr ready_for_review_at = none := by
  simp [measure_time_to_merge, h]

/-- Witness for C3, with a ready-for-review timestamp supplied. -/
theorem unmerged_returns_none_witness :
    (PullRequest.mk 3 0 4 none false).merged_at = none ∧
    measure_time_to_merge (PullRequest.mk 3 0 4 none false) (some 7) = none :=
  ⟨rfl, unmerged_returns_none _ (some 7) rfl⟩

/-- Claim C4: the ready-for-review timestamp the loop passes to the Metric
Calculator is `created_at` for a non-draft record and `updated_at` for a
draft record; a draft record with `created_at = D0`, `updated_at = D1`,
`merged_at = D2` yields `ready_for_review = D1` and duration `D2 - D1`,
while a non-draft record with the same timestamps yields
`ready_for_review = D0` and duration `D2 - D0`. -/
theorem ready_for_review_draft_policy (n : Nat) (D0 D1 D2 : Int) :
    ready_for_review (PullRequest.mk n D0 D1 (some D2) true) = D1 ∧
    measure_time_to_merge (PullRequest.mk n D0 D1 (some D2) true)
      (some (ready_for_review (PullRequest.mk n D0 D1 (some D2) true))) =
      some (D2 - D1) ∧
    ready_for_review (PullRequest.mk n D0 D1 (some D2) false) = D0 ∧
    measure_time_to_merge (PullRequest.mk n D0 D1 (some D2) false)
      (some (ready_for_review (PullRequest.mk n D0 D1 (some D2) false))) =
      some (D2 - D0) := by
  refine ⟨rfl, ?_, rfl, ?_⟩ <;> simp [measure_time_to_merge, ready_for_review]

/-- Claim C10: `measure_time_to_merge` is deterministic — it depends only on
the `merged_at` and `created_at` fields of the record and on the
ready-for-review argument; two calls agreeing on those agree on the result
(the embedding is a total pure function, so it has no side effects). -/
theorem measure_deterministic (p1 p2 : PullRequest) (r1 r2 : Option Int)
    (h1 : p1.merged_at = p2.merged_at) (h2 : p1.created_at = p2.created_at)
    (h3 : r1 = r2) :
    measure_time_to_merge p1 r1 = measure_time_to_merge p2 r2 := by
  subst h3
  cases r1 <;> cases h : p2.merged_at <;>
    simp [measure_time_to_merge, h1, h2, h]

/-- Witness for C10: two records differing in `number`, `updated_at` and
`draft` but agreeing on `merged_at` and `created_at` give equal results. -/
theorem measure_deterministic_witness :
    (PullRequest.mk 1 0 99 (some 5) true).merged_at =
      (PullRequest.mk 2 0 7 (some 5) false).merged_at ∧
    (PullRequest.mk 1 0 99 (some 5) true).created_at =
      (PullRequest.mk 2 0 7 (some 5) false).created_at ∧
    (some 3 : Option Int) = some 3 ∧
    measure_time_to_merge (PullRequest.mk 1 0 99 (some 5) true) (some 3) =
      measure_time_to_merge (PullRequest.mk 2 0 7 (some 5) false) (some 3) :=
  ⟨rfl, rfl, rfl, measure_deterministic _ _ _ _ rfl rfl rfl⟩

/-! ## Claims about the aggregation loop and the report -/

/-- Two closed pull requests, both merged: one with duration `0`
(`merged_at = created_at`) and one with duration `4`. -/
def ex_c5 : List PullRequest :=
  [PullRequest.mk 1 0 0 (some 0) false, PullRequest.mk 2 0 0 (some 4) false]

/-- Counterexample to claim C5: a merged record whose duration is exactly
zero is dropped by the loop's `if time_to_merge:` guard (`timedelta(0)` is
falsy), so the reported average is not the sum over merged records divided by
the number of merged records: over durations `{0, 4}` the spec average is
`2`, but the code reports `4`. -/
theorem average_spec_counterexample :
    ((main_run ex_c5 0).average_time_to_merge : ℚ) ≠ spec_average ex_c5 ∧
    (main_run ex_c5 0).average_time_to_merge = 4 ∧
    spec_average ex_c5 = 2 ∧
    spec_merged_count ex_c5 = 2 := by
  refine ⟨?_, by decide, ?_, by decide⟩ <;>
    · simp only [spec_average, mergedDurations, ex_c5, List.filterMap_cons,
        List.filterMap_nil, Option.map_some, ready_for_review]
      norm_num [main_run, main_loop, measure_time_to_merge,
        ready_for_review, ex_c5, generate_report, divide_and_round]

/-- Claim C5 as amended: the reported average is the sum of the durations of
the merged records with nonzero duration, divided by the count of those
records (Python `timedelta / int` division, floor division corrected by
round-half-to-even); merged records with zero duration are excluded from both
the sum and the denominator, like unmerged records. -/
theorem average_eq_nonzero_merged_average (prs : List PullRequest) (o : Nat)
    (h : 0 < nonzero_merged_count prs) :
    (main_run prs o).average_time_to_merge =
      divide_and_round (nonzero_merged_sum prs)
        (nonzero_merged_count prs : Int) := by
  simp [main_run, generate_report, main_loop_eq, h]

/-- Two closed pull requests merged in `2` and `4` time units. -/
def ex_c5w : List PullRequest :=
  [PullRequest.mk 1 0 0 (some 2) false, PullRequest.mk 2 0 0 (some 4) false]

/-- Witness for the amended C5: records merged in 2 and 4 units average to 3
units. -/
theorem average_eq_nonzero_merged_average_witness :
    0 < nonzero_merged_count ex_c5w ∧
    (main_run ex_c5w 0).average_time_to_merge =
      divide_and_round (nonzero_merged_sum ex_c5w)
        (nonzero_merged_count ex_c5w : Int) ∧
    (main_run ex_c5w 0).average_time_to_merge = 3 :=
  ⟨by decide, average_eq_nonzero_merged_average ex_c5w 0 (by decide),
    by decide⟩

/-- Claim C6: over an input sequence with no merged record at all, the
average is the zero duration (no division-by-zero error) and the reported
count is `0`. -/
theorem empty_merged_set_zero_average (prs : List PullRequest) (o : Nat)
    (h : ∀ pr ∈ prs, pr.merged_at = none) :
    (main_run prs o).average_time_to_merge = 0 ∧
    (main_run prs o).count = 0 := by
  have hf : prs.filter keepP = [] := by
    rw [List.filter_eq_nil_iff]
    intro pr hpr
    simp [keepP, measure_time_to_merge, h pr hpr, td_truthy]
  simp [main_run, generate_report, main_loop_eq, nonzero_merged_count,
    nonzero_merged_sum, hf]

/-- Witness for C6: a single open (unmerged) record. -/
theorem empty_merged_set_zero_average_witness :
    (main_run [PullRequest.mk 9 0 1 none false] 5).average_time_to_merge =
      0 ∧
    (main_run [PullRequest.mk 9 0 1 none false] 5).count = 0 :=
  empty_merged_set_zero_average [PullRequest.mk 9 0 1 none false] 5
    (by decide)

/-- A single merged record whose duration is exactly zero. -/
def ex_c7 : List PullRequest := [PullRequest.mk 1 0 0 (some 0) false]

/-- Counterexample to claim C7: a merged record with zero duration produces
no report row and is not counted, so the row count and `Total Closed PRs`
differ from the number of merged records (`1` here). -/
theorem report_row_count_counterexample :
    (main_run ex_c7 0).rows.length ≠ spec_merged_count ex_c7 ∧
    (main_run ex_c7 0).rows.length = 0 ∧
    (main_run ex_c7 0).count = 0 ∧
    spec_merged_count ex_c7 = 1 := by
  refine ⟨by decide, by decide, by decide, by decide⟩

/-- Claim C7 as amended: the number of report rows equals the number of
merged records with nonzero duration, and the `Total Closed PRs` value
written equals that same number; merged records with zero duration are
omitted from both. -/
theorem report_row_count_eq_nonzero_merged (prs : List PullRequest)
    (o : Nat) :
    (main_run prs o).rows.length = nonzero_merged_count prs ∧
    (main_run prs o).count = nonzero_merged_count prs := by
  simp [main_run, generate_report, main_loop_eq, nonzero_merged_count]

/-- Claim C8: the report rows are exactly the kept records in traversal
order — the loop appends in traversal order and the report writer emits in
list order — so the sequence of PR numbers in the report is a (not
re-sorted) subsequence of the input sequence's PR numbers. -/
theorem report_rows_preserve_input_order (prs : List PullRequest) (o : Nat) :
    (main_run prs o).rows = (prs.filter keepP).map rowOf ∧
    ((main_run prs o).rows.map MetricRow.pr).Sublist
      (prs.map PullRequest.number) := by
  have h1 : (main_run prs o).rows = (prs.filter keepP).map rowOf := by
    simp [main_run, generate_report, main_loop_eq]
  refine ⟨h1, ?_⟩
  rw [h1, List.map_map]
  have h2 : (MetricRow.pr ∘ rowOf) = PullRequest.number := rfl
  rw [h2]
  exact (List.filter_sublist _).map _

/-- Claim C9: every row emitted by the aggregation loop satisfies
`merged_at = ready_for_review_at + time_to_merge` (so its duration is
`merged_at - ready_for_review_at` for the ready-for-review timestamp stored
in that same row); moreover, when a ready-for-review timestamp is supplied
(as the loop always does), the result of `measure_time_to_merge` does not
depend on `created_at` — the `created_at` fallback branch is unreachable
from the loop. -/
theorem emitted_rows_duration_invariant (prs : List PullRequest)
    (row : MetricRow) (pr pr' : PullRequest) (t : Int)
    (hrow : row ∈ (main_loop prs).1) (hm : pr'.merged_at = pr.merged_at) :
    row.merged_at = some (row.ready_for_review_at + row.time_to_merge) ∧
    measure_time_to_merge pr (some t) =
      measure_time_to_merge pr' (some t) := by
  constructor
  · have hrow' : row ∈ (prs.filter keepP).map rowOf := by
      rw [main_loop_eq] at hrow
      exact hrow
    simp only [List.mem_map] at hrow'
    obtain ⟨q, hq, rfl⟩ := hrow'
    cases hmq : q.merged_at with
    | none =>
      exfalso
      rw [List.mem_filter] at hq
      simp [keepP, measure_time_to_merge, hmq, td_truthy] at hq
    | some mq =>
      simp only [rowOf, durOf, hmq, Option.getD_some, Option.some_inj]
      omega
  · cases h2 : pr.merged_at <;> rw [h2] at hm <;>
      simp [measure_time_to_merge, h2, hm]

/-- A single merged record, for the C9 witness. -/
def ex_c9 : List PullRequest := [PullRequest.mk 7 0 0 (some 5) false]

/-- Witness for C9, at a concrete emitted row and two records that differ in
`created_at` but agree on `merged_at`. -/
theorem emitted_rows_duration_invariant_witness :
    (MetricRow.mk 7 0 (some 5) 5).merged_at = some (0 + 5) ∧
    measure_time_to_merge (PullRequest.mk 8 1 2 (some 9) true) (some 3) =
      measure_time_to_merge (PullRequest.mk 8 100 2 (some 9) true)
        (some 3) :=
  emitted_rows_duration_invariant ex_c9 (MetricRow.mk 7 0 (some 5) 5)
    (PullRequest.mk 8 1 2 (some 9) true)
    (PullRequest.mk 8 100 2 (some 9) true) 3 (by decide) rfl
